import Mathlib

/-!
Shallow embedding of the uxsim/searchsim core: the memory store with its
lazy embedding/importance enrichment (src/searchsim/agent.py, class Memory),
the retrieval engine (Memory.retrieve_relevant), the planning retry loop
(Agent.plan), the action mapping (Agent.act), the simulation step loop
(src/uxsim/simulation.py, Simulation.run_with_persona / Simulation.run) and
the composite relevance classifier
(src/uxsim/simulators/components/relevance_classifiers.py).

Numeric conventions: Python floats are modelled as rationals; the
transcendental np.exp used for recency decay is passed in as an abstract
function expQ : Int -> Rat, and the external capabilities (batch embedding,
per-entry importance scoring) are passed in as total functions, modelling
runs in which these external calls succeed.
-/

namespace Uxsim

/-- One MemoryPiece (src/searchsim/core/types.py).  The lazily filled
`embedding` field and the free-form `metadata` dict are not modelled: the
retrieval and enrichment paths below read embeddings and importance only
from the store-level parallel arrays. -/
structure MemEntry where
  content : String
  memory_type : String
  timestamp : Int
  importance : ℚ
deriving DecidableEq, Repr, Inhabited

/-- The Memory object state (src/searchsim/agent.py lines 22-27): the
append-only entry list, the two optional derived arrays (None until first
committed, mirroring numpy arrays), and the tick counter. -/
structure MemoryStore where
  memories : List MemEntry
  embeddings : Option (List (List ℚ))
  importance_scores : Option (List ℚ)
  timestamp : Int
deriving DecidableEq, Repr

/-- Memory.update_embeddings_and_importance (agent.py lines 35-110).
The whole body is wrapped in a blanket try/except that logs and returns.
When `self.embeddings` is None, line 39 (`len(self.embeddings) ==
len(self.memories)`) raises TypeError before any mutation, so the caught
exception leaves the store unchanged: that is the `none => st` branch.
In the remaining branches the embedding batch call and the per-entry
importance loop both succeed (their outcomes are the supplied total
functions `embed` and `scoreImp`; a failed importance call in the source
just makes that entry's score 0.5, which is one possible value of
`scoreImp`), and both derived arrays are committed together. -/
def Memory.update_embeddings_and_importance
    (embed : List String → List (List ℚ)) (scoreImp : MemEntry → ℚ)
    (st : MemoryStore) : MemoryStore :=
  match st.embeddings with
  | none => st
  | some embs =>
    if embs.length = st.memories.length then st
    else
      let memory_to_embed := st.memories.drop embs.length
      if memory_to_embed.isEmpty then st
      else
        let new_embeds := embed (memory_to_embed.map (fun m => m.content))
        let imp_start : Nat :=
          match st.importance_scores with
          | some l => l.length
          | none => 0
        let new_importance := (st.memories.drop imp_start).map scoreImp
        { st with
          embeddings := some (if embs.length = 0 then new_embeds else embs ++ new_embeds),
          importance_scores :=
            some (match st.importance_scores with
                  | some l => l ++ new_importance
                  | none => new_importance) }

/-- Dot product of two embedding vectors (np.dot on aligned vectors). -/
def dotQ (xs ys : List ℚ) : ℚ :=
  (List.zipWith (fun a b => a * b) xs ys).sum

/-- Python dict.get(kind, 1) over the kind_weight mapping
(agent.py line 160), modelled over an association list. -/
def lookupKindWeight (kw : List (String × ℚ)) (k : String) : ℚ :=
  match kw.find? (fun p => decide (p.1 = k)) with
  | some p => p.2
  | none => 1

/-- The default kind_weight dict installed when the caller passes None
(agent.py line 158). -/
def defaultKindWeight : List (String × ℚ) :=
  [("action", 10), ("plan", 10), ("thought", 10), ("reflection", 10)]

/-- np.argsort(-scores) over indices 0..m-1: indices sorted by score
descending.  np.argsort with the default quicksort leaves the relative
order of tied scores unspecified; the model resolves ties by original
index ascending (the stable outcome).  Every claim proved below is
insensitive to the tie order: only the fact that the output is a
permutation of range m is used. -/
def argsortDesc (score : Nat → ℚ) (m : Nat) : List Nat :=
  List.insertionSort
    (fun i j => score j < score i ∨ (score i = score j ∧ i ≤ j))
    (List.range m)

/-- The seed list of agent.py lines 119-129, as indices into the entry
list: all observation entries with timestamp >= now - 3 followed by all
action entries with timestamp >= now - 5, in insertion order, when
include_recent is set; empty otherwise. -/
def Memory.recentIdx (st : MemoryStore) (include_recent : Bool) : List Nat :=
  if include_recent then
    (List.range st.memories.length).filter
      (fun i => decide ((st.memories.getD i default).memory_type = "observation" ∧
                        (st.memories.getD i default).timestamp ≥ st.timestamp - 3))
    ++
    (List.range st.memories.length).filter
      (fun i => decide ((st.memories.getD i default).memory_type = "action" ∧
                        (st.memories.getD i default).timestamp ≥ st.timestamp - 5))
  else []

/-- The score-ranked fill of agent.py lines 131-171, as indices: after
the enrichment call, if embedding state exists, score the enriched
prefix, argsort, take the top n, keep indices inside the entry list
(the source's `if i < len(self.memories)` guard) and drop entries that
compare equal (dataclass value equality) to a seed entry (the source's
`m not in results`).  The three degenerate source branches that return
`results[:n]` (no embeddings, empty embeddings, empty enriched prefix)
give an empty fill. -/
def Memory.fillIdx (embed : List String → List (List ℚ)) (scoreImp : MemEntry → ℚ)
    (expQ : Int → ℚ) (st : MemoryStore) (query : String) (n : Nat)
    (include_recent : Bool) (kind_weight : Option (List (String × ℚ))) : List Nat :=
  let st2 := Memory.update_embeddings_and_importance embed scoreImp st
  match st2.embeddings with
  | none => []
  | some embs =>
    if embs.length = 0 then []
    else
      let smallest :=
        min (min embs.length st2.memories.length)
          (match st2.importance_scores with
           | some l => l.length
           | none => st2.memories.length)
      if smallest = 0 then []
      else
        let query_embedding := (embed [query]).getD 0 []
        let score : Nat → ℚ := fun i =>
          let m := st2.memories.getD i default
          let similarity := dotQ (embs.getD i []) query_embedding
          let recency := expQ (m.timestamp - st2.timestamp)
          let imp : ℚ :=
            match st2.importance_scores with
            | some l => l.getD i 1
            | none => 1
          let w := lookupKindWeight (kind_weight.getD defaultKindWeight) m.memory_type
          (similarity + recency + imp) * w
        let top_indices := (argsortDesc score smallest).take n
        let retrieved := top_indices.filter (fun i => decide (i < st2.memories.length))
        let seed_entries :=
          (Memory.recentIdx st include_recent).map (fun i => st.memories.getD i default)
        retrieved.filter (fun i => decide ((st2.memories.getD i default) ∉ seed_entries))

/-- Memory.retrieve_relevant (agent.py lines 112-177) as indices into
the entry list: early return [] on an empty store, otherwise seed list
then deduplicated fill, truncated to n (`all_memories[:n]`; in the
degenerate branches the fill is empty so this is `results[:n]`).
The blanket except-fallback (return the 5 most recent entries) is
unreachable in the model because the supplied capabilities are total. -/
def Memory.retrieveIdx (embed : List String → List (List ℚ)) (scoreImp : MemEntry → ℚ)
    (expQ : Int → ℚ) (st : MemoryStore) (query : String) (n : Nat)
    (include_recent : Bool) (kind_weight : Option (List (String × ℚ))) : List Nat :=
  if st.memories.isEmpty then []
  else
    ((Memory.recentIdx st include_recent) ++
      (Memory.fillIdx embed scoreImp expQ st query n include_recent kind_weight)).take n

/-- The entry list returned by Memory.retrieve_relevant. -/
def Memory.retrieve_relevant (embed : List String → List (List ℚ)) (scoreImp : MemEntry → ℚ)
    (expQ : Int → ℚ) (st : MemoryStore) (query : String) (n : Nat)
    (include_recent : Bool) (kind_weight : Option (List (String × ℚ))) : List MemEntry :=
  (Memory.retrieveIdx embed scoreImp expQ st query n include_recent kind_weight).map
    (fun i => st.memories.getD i default)

/-- Outcome of one planning attempt (agent.py lines 265-289): the chat
call (or its JSON parse) raised; or it parsed but missed one of the keys
plan/rationale/next_step; or it returned all three values. -/
inductive PlanAttempt where
  | fail
  | incomplete
  | ok (plan rationale next_step : String)
deriving DecidableEq, Repr

/-- The three Agent fields plan() writes (agent.py lines 186-188,
initialised to None). -/
structure PlanState where
  current_plan : Option String
  current_plan_rationale : Option String
  next_step : Option String
deriving DecidableEq, Repr

/-- The fallback triple written in the final-attempt exception branch
(agent.py lines 287-289). -/
def planFallbackState : PlanState :=
  { current_plan := some "Continue with current approach",
    current_plan_rationale := some "Using fallback plan due to LLM errors",
    next_step := some "Try the next logical action" }

/-- The `for attempt in range(max_retries)` loop of agent.py lines
265-289, fuelled (fuel = max_retries suffices since each iteration
increments attempt).  A complete response sets the three fields and
breaks; an incomplete response only logs; an exception sets the fallback
triple exactly when it happens on the last attempt. -/
def planLoopAux (oracle : Nat → PlanAttempt) (max_retries : Nat) :
    Nat → Nat → PlanState → PlanState
  | 0, _, st => st
  | Nat.succ fuel, attempt, st =>
    if attempt < max_retries then
      match oracle attempt with
      | .ok p r s =>
        { current_plan := some p, current_plan_rationale := some r, next_step := some s }
      | .incomplete => planLoopAux oracle max_retries fuel (attempt + 1) st
      | .fail =>
        if attempt = max_retries - 1 then
          planLoopAux oracle max_retries fuel (attempt + 1) planFallbackState
        else
          planLoopAux oracle max_retries fuel (attempt + 1) st
    else st

/-- Agent.plan's retry phase with max_retries = 3 (agent.py line 264). -/
def Agent.planRetry (oracle : Nat → PlanAttempt) (st : PlanState) : PlanState :=
  planLoopAux oracle 3 3 0 st

/-- Is the attempt a complete response? -/
def PlanAttempt.isOk : PlanAttempt → Bool
  | .ok _ _ _ => true
  | _ => false

/-- The result cap plan() passes to retrieve_relevant (agent.py line 243). -/
def planRetrieveN : Nat := 20

/-- The kind_weight dict plan() passes to retrieve_relevant
(agent.py line 245). -/
def planKindWeight : List (String × ℚ) :=
  [("action", 10), ("plan", 10), ("thought", 10), ("reflection", 10)]

/-- The memory retrieval performed by Agent.plan (agent.py lines
240-246): query is f-string of intent and current plan (empty string for
None), n = 20, include_recent = True, the four-kind weight dict. -/
def Agent.planRetrieve (embed : List String → List (List ℚ)) (scoreImp : MemEntry → ℚ)
    (expQ : Int → ℚ) (intent : String) (current_plan : Option String)
    (st : MemoryStore) : List MemEntry :=
  Memory.retrieve_relevant embed scoreImp expQ st
    (intent ++ " " ++ current_plan.getD "") planRetrieveN true (some planKindWeight)

/-- ActionType (src/searchsim/core/types.py lines 9-17). -/
inductive ActionType where
  | search
  | click
  | type
  | select
  | back
  | wait
  | stop
deriving DecidableEq, Repr

/-- One item of the structured action-selection response, as the string
fields Agent.act reads from it.  Python dict keys are unique; the model
uses first-match lookup over an association list. -/
structure ActionDict where
  entries : List (String × String)
deriving DecidableEq, Repr

/-- Python's action_dict.get(key, default) restricted to string values. -/
def ActionDict.get (d : ActionDict) (k dflt : String) : String :=
  match d.entries.find? (fun p => decide (p.1 = k)) with
  | some p => p.2
  | none => dflt

/-- Python str.lower(), character by character (the response type names
are ASCII; String.toLower computes the same characters but is stated via
a non-reducing recursion, so the model maps over the character list). -/
def strLower (s : String) : String := String.mk (s.data.map Char.toLower)

/-- action_type_mapping.get(s, ActionType.STOP) (agent.py lines 376-388):
the dict maps the seven lowercase names; anything else falls back to stop. -/
def action_type_mapping (s : String) : ActionType :=
  if s = "search" then .search
  else if s = "click" then .click
  else if s = "type" then .type
  else if s = "select" then .select
  else if s = "back" then .back
  else if s = "wait" then .wait
  else if s = "stop" then .stop
  else .stop

/-- The Action subclass instances Agent.act constructs.  back and wait
have no subclass branch in the source: its if/elif chain sends them to
the StopAction else-branch, so there is no back/wait constructor here. -/
inductive ParsedAction where
  | searchAction (query : String)
  | clickAction (element_id : String)
  | typeAction (element_id text : String)
  | selectAction (element_id value : String)
  | stopAction (reason : String)
deriving DecidableEq, Repr

/-- The per-item construction of agent.py lines 386-412: lowercase the
"type" field, map it through action_type_mapping, then build the proper
Action subclass with the source's two-level .get fallbacks; every type
other than search/click/type/select (including back, wait and stop
itself) lands in the StopAction else-branch. -/
def Agent.buildAction (d : ActionDict) : ParsedAction :=
  match action_type_mapping (strLower (d.get "type" "")) with
  | .search => .searchAction (d.get "query" (d.get "text" ""))
  | .click => .clickAction (d.get "element_id" (d.get "selector" ""))
  | .type => .typeAction (d.get "element_id" (d.get "selector" "")) (d.get "text" (d.get "value" ""))
  | .select => .selectAction (d.get "element_id" (d.get "selector" "")) (d.get "value" "")
  | _ => .stopAction (d.get "reason" (d.get "description" "Agent decided to stop"))

/-- The loop over action_data.get("actions", []) (agent.py line 386):
one constructed action per response item. -/
def Agent.actFromResponse (items : List ActionDict) : List ParsedAction :=
  items.map Agent.buildAction

/-- What one iteration of the simulation loop observes about the outside
world (simulation.py lines 189-233): the policy produced a non-stop
action and the environment step returned an observation with an optional
error_message; or the policy produced a stop action whose parameters may
carry a reason; or an exception was raised somewhere in the step body. -/
inductive StepOutcome where
  | act (error_message : Option String)
  | stop (reason : Option String)
  | exc (message : String)
deriving DecidableEq, Repr

/-- One audit-trail entry (the dicts appended to self.results): a normal
step record (with its optional environment error), a stop record with
stop_reason, or an error record. -/
inductive AuditEntry where
  | stepEntry (step : Nat) (error_message : Option String)
  | stopEntry (step : Nat) (stop_reason : String)
  | errorEntry (step : Nat) (error : String)
deriving DecidableEq, Repr

/-- The `while self.step_count < max_steps and self.is_running` loop of
simulation.py lines 189-233 (identical in run, lines 324-368), fuelled:
fuel = max_steps suffices because only the non-stop branch increments
step_count and consumes fuel, and both exits return the same pair.
is_running is True throughout a single-threaded run (only the external
stop() method clears it).  Returns (final step_count, audit trail).
Note the stop and error branches append their entry and break WITHOUT
incrementing step_count. -/
def simLoopAux (oracle : Nat → StepOutcome) (max_steps : Nat) :
    Nat → Nat → List AuditEntry → Nat × List AuditEntry
  | 0, s, acc => (s, acc)
  | Nat.succ fuel, s, acc =>
    if s < max_steps then
      match oracle s with
      | .stop r => (s, acc ++ [AuditEntry.stopEntry (s + 1) (r.getD "Agent completed task")])
      | .exc m => (s, acc ++ [AuditEntry.errorEntry (s + 1) m])
      | .act e => simLoopAux oracle max_steps fuel (s + 1) (acc ++ [AuditEntry.stepEntry (s + 1) e])
    else (s, acc)

/-- The user-visible fields of the final_results dict built by
Simulation.run_with_persona (simulation.py lines 240-251). -/
structure SimResult where
  steps : List AuditEntry
  total_steps : Nat
  status : String
  completed : Bool
deriving DecidableEq, Repr

/-- Simulation.run_with_persona (simulation.py lines 153-262), from the
start of the main loop: step_count starts at 0 (set in __init__), and the
final dict reports status "completed" when step_count < max_steps else
"max_steps_reached" (line 247) and completed = step_count < max_steps. -/
def Simulation.run_with_persona (oracle : Nat → StepOutcome) (max_steps : Nat) : SimResult :=
  let r := simLoopAux oracle max_steps max_steps 0 []
  { steps := r.2,
    total_steps := r.1,
    status := if r.1 < max_steps then "completed" else "max_steps_reached",
    completed := decide (r.1 < max_steps) }

/-- The final_results dict built by Simulation.run (simulation.py lines
375-385): the same loop and fields but NO "status" key at all. -/
structure SimRunResult where
  steps : List AuditEntry
  total_steps : Nat
  completed : Bool
deriving DecidableEq, Repr

/-- Simulation.run (simulation.py lines 296-396), from the start of the
main loop; its result dict carries no status field. -/
def Simulation.run (oracle : Nat → StepOutcome) (max_steps : Nat) : SimRunResult :=
  let r := simLoopAux oracle max_steps max_steps 0 []
  { steps := r.2,
    total_steps := r.1,
    completed := decide (r.1 < max_steps) }

/-- CompositeRelevanceClassifier.is_relevant
(relevance_classifiers.py lines 103-119) on the list of votes collected
from the member classifiers.  Python's `sum(results) > len(results) / 2`
uses exact float arithmetic on small integers, equivalent to
2 * count(true) > len over the naturals; `all`/`any` are the usual
quantifiers; any unrecognized voting_strategy falls into the final else,
which repeats the majority formula. -/
def CompositeRelevanceClassifier.is_relevant
    (voting_strategy : String) (results : List Bool) : Bool :=
  if voting_strategy = "majority" then
    decide (2 * results.count true > results.length)
  else if voting_strategy = "unanimous" then
    results.all (fun b => b)
  else if voting_strategy = "any" then
    results.any (fun b => b)
  else
    decide (2 * results.count true > results.length)

/-- A succeeding batch-embedding capability used in concrete runs: every
text embeds to the one-dimensional vector [1]. -/
def demoEmbed : List String → List (List ℚ) :=
  fun xs => xs.map (fun _ => [1])

/-- A succeeding importance-scoring capability used in concrete runs. -/
def demoImp : MemEntry → ℚ := fun _ => 1 / 2

/-- A stand-in for np.exp in concrete runs (its value is irrelevant to
every concrete fact proved below). -/
def demoExp : Int → ℚ := fun _ => 1

/-- The store right after the very first append, before any enrichment:
one entry, embeddings = None, importance_scores = None (agent.py lines
24-26 initialise both arrays to None). -/
def firstCallStore : MemoryStore :=
  { memories := [{ content := "first observation", memory_type := "observation",
                   timestamp := 0, importance := 1 / 2 }],
    embeddings := none,
    importance_scores := none,
    timestamp := 0 }

/-- An old observation entry (timestamp 0 while the store's tick is 10,
outside both recency windows). -/
def c6Obs : MemEntry :=
  { content := "saw a product list", memory_type := "observation",
    timestamp := 0, importance := 1 / 2 }

/-- A store holding only c6Obs, already enriched (embeddings and
importance arrays of length 1), at tick 10. -/
def c6Store : MemoryStore :=
  { memories := [c6Obs],
    embeddings := some [[1]],
    importance_scores := some [1 / 2],
    timestamp := 10 }

/-- A store with one observation inside the 3-tick recency window. -/
def c3Store : MemoryStore :=
  { memories := [{ content := "fresh observation", memory_type := "observation",
                   timestamp := 9, importance := 1 / 2 }],
    embeddings := none,
    importance_scores := none,
    timestamp := 10 }

/-! ## Helper lemmas -/

/-- The enrichment call never touches the entry list. -/
theorem update_memories_eq (embed : List String → List (List ℚ))
    (scoreImp : MemEntry → ℚ) (st : MemoryStore) :
    (Memory.update_embeddings_and_importance embed scoreImp st).memories = st.memories := by
  unfold Memory.update_embeddings_and_importance
  split
  · rfl
  · dsimp only
    split
    · rfl
    · split
      · rfl
      · rfl

/-- Every seed index points into the entry list. -/
theorem recentIdx_mem_lt (st : MemoryStore) (ir : Bool) (i : Nat)
    (h : i ∈ Memory.recentIdx st ir) : i < st.memories.length := by
  unfold Memory.recentIdx at h
  cases ir with
  | false => simp at h
  | true =>
    rw [if_pos rfl] at h
    rcases List.mem_append.mp h with h | h <;>
      exact List.mem_range.mp (List.mem_filter.mp h).1

/-- The seed list holds no index twice: each of its two halves is a
filter of the duplicate-free index range, and the two halves are
disjoint because one selects observation entries and the other action
entries. -/
theorem recentIdx_nodup (st : MemoryStore) (ir : Bool) : (Memory.recentIdx st ir).Nodup := by
  unfold Memory.recentIdx
  cases ir with
  | false => simp
  | true =>
    rw [if_pos rfl]
    refine List.Nodup.append ((List.nodup_range _).filter _) ((List.nodup_range _).filter _) ?_
    intro a ha1 ha2
    have h1 := (List.mem_filter.mp ha1).2
    have h2 := (List.mem_filter.mp ha2).2
    simp only [decide_eq_true_eq] at h1 h2
    exact absurd (h1.1.symm.trans h2.1) (by decide)

/-- argsort output is a permutation of the index range, hence
duplicate-free. -/
theorem argsortDesc_nodup (sc : Nat → ℚ) (m : Nat) : (argsortDesc sc m).Nodup :=
  (List.perm_insertionSort _ _).nodup_iff.mpr (List.nodup_range m)

/-- Every fill index points into the entry list (the source's bounds
guard) and its entry was deduplicated against the seed entries (the
source's `m not in results`). -/
theorem fillIdx_mem (embed : List String → List (List ℚ)) (scoreImp : MemEntry → ℚ)
    (expQ : Int → ℚ) (st : MemoryStore) (query : String) (n : Nat)
    (ir : Bool) (kw : Option (List (String × ℚ))) (i : Nat)
    (h : i ∈ Memory.fillIdx embed scoreImp expQ st query n ir kw) :
    i < st.memories.length ∧
    (st.memories.getD i default) ∉
      ((Memory.recentIdx st ir).map (fun j => st.memories.getD j default)) := by
  unfold Memory.fillIdx at h
  simp only at h
  split at h
  · exact absurd h (List.not_mem_nil i)
  · split at h
    · exact absurd h (List.not_mem_nil i)
    · split at h
      · exact absurd h (List.not_mem_nil i)
      · have h2 := List.mem_filter.mp h
        have h1 := List.mem_filter.mp h2.1
        constructor
        · have hlt := h1.2
          simp only [decide_eq_true_eq, update_memories_eq] at hlt
          exact hlt
        · have hns := h2.2
          simp only [decide_eq_true_eq, update_memories_eq] at hns
          exact hns

/-- The fill holds no index twice: it is carved out of an argsort
permutation by take and filter. -/
theorem fillIdx_nodup (embed : List String → List (List ℚ)) (scoreImp : MemEntry → ℚ)
    (expQ : Int → ℚ) (st : MemoryStore) (query : String) (n : Nat)
    (ir : Bool) (kw : Option (List (String × ℚ))) :
    (Memory.fillIdx embed scoreImp expQ st query n ir kw).Nodup := by
  unfold Memory.fillIdx
  simp only
  split
  · exact List.nodup_nil
  · split
    · exact List.nodup_nil
    · split
      · exact List.nodup_nil
      · exact ((((argsortDesc_nodup _ _).sublist (List.take_sublist _ _)).filter _).filter _)

/-- The step counter never exceeds the step budget. -/
theorem simLoopAux_fst_le (oracle : Nat → StepOutcome) (max_steps : Nat) :
    ∀ fuel s acc, s ≤ max_steps → (simLoopAux oracle max_steps fuel s acc).1 ≤ max_steps := by
  intro fuel
  induction fuel with
  | zero => intro s acc h; exact h
  | succ fuel ih =>
    intro s acc h
    by_cases hs : s < max_steps
    · simp only [simLoopAux, if_pos hs]
      cases oracle s with
      | stop r => exact Nat.le_of_lt hs
      | exc m => exact Nat.le_of_lt hs
      | act e => exact ih (s + 1) _ hs
    · simp only [simLoopAux, if_neg hs]
      exact h

/-! ## Claim theorems -/

/-- C1: the claim says the very first sync_enrichment call (embeddings
still None) enriches the whole un-enriched suffix so that afterwards
len(embeddings) = len(importances) = len(entries).  The code instead
evaluates len(None) before its own None-guards, the TypeError is
swallowed by the blanket except, and the store is left untouched: after
the call on the first-append store (one entry, both arrays None) with
succeeding capabilities, both derived arrays are still None while one
entry awaits enrichment — and since embeddings can only stop being None
inside this same unreachable commit, enrichment never happens at all. -/
theorem c1_sync_enrichment_first_call_bug :
    Memory.update_embeddings_and_importance demoEmbed demoImp firstCallStore = firstCallStore ∧
    firstCallStore.embeddings = none ∧
    firstCallStore.importance_scores = none ∧
    firstCallStore.memories.length = 1 :=
  ⟨rfl, rfl, rfl, rfl⟩

/-- C2 counterexample: a run of plan() in which all 3 attempts return
parseable responses missing a required key installs NO fallback — the
three plan fields keep their initial None values, refuting the claim
that such a run ends with the fallback triple. -/
theorem c2_incomplete_attempts_no_fallback :
    Agent.planRetry (fun _ => PlanAttempt.incomplete) ⟨none, none, none⟩ = ⟨none, none, none⟩ ∧
    Agent.planRetry (fun _ => PlanAttempt.incomplete) ⟨none, none, none⟩ ≠ planFallbackState := by
  constructor
  · rfl
  · decide

/-- C2 amended: the fallback triple is installed exactly by the
exception branch of the last attempt — whenever neither of the first
two attempts returns a complete response and the third attempt raises,
plan()'s retry loop ends in the verbatim fallback triple (an incomplete
third response, by contrast, leaves the fields unchanged, as the
counterexample shows). -/
theorem c2_fallback_on_final_attempt_failure (oracle : Nat → PlanAttempt) (st : PlanState)
    (h0 : (oracle 0).isOk = false) (h1 : (oracle 1).isOk = false)
    (h2 : oracle 2 = PlanAttempt.fail) :
    Agent.planRetry oracle st = planFallbackState := by
  have e0 : oracle 0 = PlanAttempt.fail ∨ oracle 0 = PlanAttempt.incomplete := by
    cases h : oracle 0 <;> simp_all [PlanAttempt.isOk]
  have e1 : oracle 1 = PlanAttempt.fail ∨ oracle 1 = PlanAttempt.incomplete := by
    cases h : oracle 1 <;> simp_all [PlanAttempt.isOk]
  rcases e0 with e0 | e0 <;> rcases e1 with e1 | e1 <;>
    simp [Agent.planRetry, planLoopAux, e0, e1, h2]

/-- C2 witness: three raising attempts from the fresh agent state end in
the fallback triple. -/
theorem c2_fallback_on_final_attempt_failure_witness :
    Agent.planRetry (fun _ => PlanAttempt.fail) ⟨none, none, none⟩ = planFallbackState :=
  c2_fallback_on_final_attempt_failure (fun _ => PlanAttempt.fail) ⟨none, none, none⟩ rfl rfl rfl

/-- C3: for every retrieval with include_recent = True whose cap n is at
least the seed-list length, the result is exactly the seed entries (all
observation entries with timestamp >= now-3 and action entries with
timestamp >= now-5, in that order) followed by score-ranked fill
entries, so in particular every such recent entry present in the store
appears in the result, before any fill entry. -/
theorem c3_recency_window_invariant (embed : List String → List (List ℚ))
    (scoreImp : MemEntry → ℚ) (expQ : Int → ℚ) (st : MemoryStore) (query : String)
    (n : Nat) (kw : Option (List (String × ℚ)))
    (h : (Memory.recentIdx st true).length ≤ n) :
    (Memory.retrieve_relevant embed scoreImp expQ st query n true kw =
      ((Memory.recentIdx st true).map (fun i => st.memories.getD i default)) ++
      (((Memory.fillIdx embed scoreImp expQ st query n true kw).take
          (n - (Memory.recentIdx st true).length)).map (fun i => st.memories.getD i default))) ∧
    (∀ m ∈ st.memories,
      ((m.memory_type = "observation" ∧ m.timestamp ≥ st.timestamp - 3) ∨
       (m.memory_type = "action" ∧ m.timestamp ≥ st.timestamp - 5)) →
      m ∈ Memory.retrieve_relevant embed scoreImp expQ st query n true kw) := by
  have key : Memory.retrieve_relevant embed scoreImp expQ st query n true kw =
      ((Memory.recentIdx st true).map (fun i => st.memories.getD i default)) ++
      (((Memory.fillIdx embed scoreImp expQ st query n true kw).take
          (n - (Memory.recentIdx st true).length)).map (fun i => st.memories.getD i default)) := by
    unfold Memory.retrieve_relevant Memory.retrieveIdx
    split
    · rename_i hemp
      have hnil : st.memories = [] := by
        cases hm : st.memories with
        | nil => rfl
        | cons a l => rw [hm] at hemp; simp at hemp
      have hfill : Memory.fillIdx embed scoreImp expQ st query n true kw = [] := by
        refine List.eq_nil_iff_forall_not_mem.mpr ?_
        intro i hi
        have hlt := (fillIdx_mem embed scoreImp expQ st query n true kw i hi).1
        rw [hnil] at hlt
        exact absurd hlt (Nat.not_lt_zero i)
      have hrec : Memory.recentIdx st true = [] := by
        unfold Memory.recentIdx
        rw [if_pos rfl, hnil]
        rfl
      rw [hfill, hrec]
      simp
    · rw [List.take_append_eq_append_take, List.take_of_length_le h, List.map_append]
  refine ⟨key, ?_⟩
  intro m hm hprop
  obtain ⟨i, hlt, hget⟩ := List.mem_iff_getElem.mp hm
  have hgd : st.memories.getD i default = m := by
    rw [List.getD_eq_getElem st.memories default hlt]
    exact hget
  have hrec : i ∈ Memory.recentIdx st true := by
    unfold Memory.recentIdx
    rw [if_pos rfl]
    rcases hprop with hp | hp
    · refine List.mem_append_left _ (List.mem_filter.mpr ⟨List.mem_range.mpr hlt, ?_⟩)
      simp only [decide_eq_true_eq, hgd]
      exact hp
    · refine List.mem_append_right _ (List.mem_filter.mpr ⟨List.mem_range.mpr hlt, ?_⟩)
      simp only [decide_eq_true_eq, hgd]
      exact hp
  rw [key]
  exact List.mem_append_left _ (List.mem_map.mpr ⟨i, hrec, hgd⟩)

/-- C3 witness: on a store holding one observation inside the recency
window, with cap 5, the recency-window theorem applies and the
observation is retrieved first. -/
theorem c3_recency_window_invariant_witness :
    (Memory.retrieve_relevant demoEmbed demoImp demoExp c3Store "q" 5 true none =
      ((Memory.recentIdx c3Store true).map (fun i => c3Store.memories.getD i default)) ++
      (((Memory.fillIdx demoEmbed demoImp demoExp c3Store "q" 5 true none).take
          (5 - (Memory.recentIdx c3Store true).length)).map
            (fun i => c3Store.memories.getD i default))) ∧
    (∀ m ∈ c3Store.memories,
      ((m.memory_type = "observation" ∧ m.timestamp ≥ c3Store.timestamp - 3) ∨
       (m.memory_type = "action" ∧ m.timestamp ≥ c3Store.timestamp - 5)) →
      m ∈ Memory.retrieve_relevant demoEmbed demoImp demoExp c3Store "q" 5 true none) :=
  c3_recency_window_invariant demoEmbed demoImp demoExp c3Store "q" 5 none (by decide)

/-- C4 counterexample: the claim says a run whose loop ended on a
per-step exception reports status "error", distinguished from the stop
and budget statuses.  In the code a first-step exception under
max_steps = 5 leaves step_count = 0 < 5, so the final status is the
string "completed" — the same status a stop-terminated run gets — and
no run ever reports an error status. -/
theorem c4_error_break_reports_completed :
    (Simulation.run_with_persona (fun _ => StepOutcome.exc "boom") 5).status = "completed" ∧
    (Simulation.run_with_persona (fun _ => StepOutcome.exc "boom") 5).steps =
      [AuditEntry.errorEntry 1 "boom"] ∧
    (Simulation.run_with_persona (fun _ => StepOutcome.stop none) 5).status = "completed" :=
  ⟨rfl, rfl, rfl⟩

/-- C4 amended: every terminating run of run_with_persona reports a
status in the two-element set set out in the code, "completed" or
"max_steps_reached"; "max_steps_reached" is reported exactly when the
step counter reached max_steps, and the status is never "error" (error
termination is folded into "completed").  Simulation.run drives the
same loop to the same audit trail and step count but emits no status
field at all. -/
theorem c4_status_set_amended (oracle : Nat → StepOutcome) (max_steps : Nat) :
    ((Simulation.run_with_persona oracle max_steps).status = "completed" ∨
     (Simulation.run_with_persona oracle max_steps).status = "max_steps_reached") ∧
    ((Simulation.run_with_persona oracle max_steps).status = "max_steps_reached" ↔
      (Simulation.run_with_persona oracle max_steps).total_steps = max_steps) ∧
    (Simulation.run_with_persona oracle max_steps).status ≠ "error" ∧
    (Simulation.run oracle max_steps).steps = (Simulation.run_with_persona oracle max_steps).steps ∧
    (Simulation.run oracle max_steps).total_steps =
      (Simulation.run_with_persona oracle max_steps).total_steps := by
  have hle : (simLoopAux oracle max_steps max_steps 0 []).1 ≤ max_steps :=
    simLoopAux_fst_le oracle max_steps max_steps 0 [] (Nat.zero_le _)
  have hst : (Simulation.run_with_persona oracle max_steps).status =
      if (simLoopAux oracle max_steps max_steps 0 []).1 < max_steps
      then "completed" else "max_steps_reached" := rfl
  have htot : (Simulation.run_with_persona oracle max_steps).total_steps =
      (simLoopAux oracle max_steps max_steps 0 []).1 := rfl
  refine ⟨?_, ?_, ?_, rfl, rfl⟩
  · by_cases hc : (simLoopAux oracle max_steps max_steps 0 []).1 < max_steps
    · exact Or.inl (by rw [hst, if_pos hc])
    · exact Or.inr (by rw [hst, if_neg hc])
  · by_cases hc : (simLoopAux oracle max_steps max_steps 0 []).1 < max_steps
    · rw [hst, if_pos hc, htot]
      constructor
      · intro h; exact absurd h (by decide)
      · intro h; omega
    · rw [hst, if_neg hc, htot]
      constructor
      · intro h; omega
      · intro h; rfl
  · by_cases hc : (simLoopAux oracle max_steps max_steps 0 []).1 < max_steps
    · rw [hst, if_pos hc]; decide
    · rw [hst, if_neg hc]; decide

/-- C5: under max_steps = 5 a policy that returns a stop action on the
first decision terminates with exactly one audit entry (the stop record,
appended before the counter increment), total_steps = 0, and the
stop-termination status — whose literal string in the code is
"completed" (the spec's name for it is "completed-by-stop", just as its
"max-steps-reached" denotes the literal "max_steps_reached"). -/
theorem c5_first_step_stop :
    Simulation.run_with_persona (fun _ => StepOutcome.stop none) 5 =
      { steps := [AuditEntry.stopEntry 1 "Agent completed task"],
        total_steps := 0,
        status := "completed",
        completed := true } :=
  rfl

/-- C6 counterexample: the claim says plan()'s retrieval excludes
observation entries from the score-ranked portion (zero weight).  In the
code the weight dict plan() passes simply omits the observation kind, so
the lookup falls back to the default weight 1, and on a store whose only
entry is an old observation (outside the recency window, so the seed
list is empty) plan()'s retrieval returns that observation as a
score-ranked fill entry. -/
theorem c6_observation_weight_not_zero :
    lookupKindWeight planKindWeight "observation" = 1 ∧
    Memory.recentIdx c6Store true = [] ∧
    Agent.planRetrieve demoEmbed demoImp demoExp "intent" none c6Store = [c6Obs] :=
  ⟨rfl, rfl, rfl⟩

/-- C6 amended: plan()'s retrieval requests up to 20 memories with the
action, plan, thought and reflection kinds weighted equally at 10;
observation-kind entries are NOT excluded from the score-ranked portion:
any kind absent from the weight dict, observation included, carries the
default weight 1. -/
theorem c6_plan_retrieval_weights_amended :
    planRetrieveN = 20 ∧
    lookupKindWeight planKindWeight "action" = 10 ∧
    lookupKindWeight planKindWeight "plan" = 10 ∧
    lookupKindWeight planKindWeight "thought" = 10 ∧
    lookupKindWeight planKindWeight "reflection" = 10 ∧
    lookupKindWeight planKindWeight "observation" = 1 ∧
    (∀ embed scoreImp expQ intent current_plan st,
      Agent.planRetrieve embed scoreImp expQ intent current_plan st =
        Memory.retrieve_relevant embed scoreImp expQ st
          (intent ++ " " ++ current_plan.getD "") 20 true (some planKindWeight)) :=
  ⟨rfl, rfl, rfl, rfl, rfl, rfl, fun _ _ _ _ _ _ => rfl⟩

/-- C7: for every retrieval request and store state the returned list
has length at most n, and the underlying list of store positions is
duplicate-free: the seed half never repeats a position (disjoint kind
filters over a duplicate-free range), the fill half is carved from an
argsort permutation, and a fill position whose entry equals a seed entry
is removed by the dedup filter — so no memory entry reference occurs
twice. -/
theorem c7_no_duplicates_and_cap (embed : List String → List (List ℚ))
    (scoreImp : MemEntry → ℚ) (expQ : Int → ℚ) (st : MemoryStore) (query : String)
    (n : Nat) (include_recent : Bool) (kind_weight : Option (List (String × ℚ))) :
    (Memory.retrieve_relevant embed scoreImp expQ st query n include_recent kind_weight).length ≤ n ∧
    (Memory.retrieveIdx embed scoreImp expQ st query n include_recent kind_weight).Nodup := by
  constructor
  · unfold Memory.retrieve_relevant
    rw [List.length_map]
    unfold Memory.retrieveIdx
    split
    · exact Nat.zero_le n
    · rw [List.length_take]
      exact min_le_left _ _
  · unfold Memory.retrieveIdx
    split
    · exact List.nodup_nil
    · refine List.Nodup.sublist (List.take_sublist _ _) ?_
      refine (recentIdx_nodup st include_recent).append
        (fillIdx_nodup embed scoreImp expQ st query n include_recent kind_weight) ?_
      intro a ha1 ha2
      exact (fillIdx_mem embed scoreImp expQ st query n include_recent kind_weight a ha2).2
        (List.mem_map_of_mem _ ha1)

/-- C8: the concrete click response yields exactly one click action
targeting "x"; every response item yields exactly one action; and an
item whose type value is unrecognized, with no reason or description
key, yields a stop action with the default reason "Agent decided to
stop" (a missing type reads as "", which is likewise unrecognized). -/
theorem c8_action_mapping :
    (Agent.actFromResponse [⟨[("type", "click"), ("element_id", "x")]⟩] =
      [ParsedAction.clickAction "x"]) ∧
    (∀ items : List ActionDict, (Agent.actFromResponse items).length = items.length) ∧
    (∀ d : ActionDict,
      strLower (d.get "type" "") ∉ ["search", "click", "type", "select", "back", "wait", "stop"] →
      d.entries.find? (fun p => decide (p.1 = "reason")) = none →
      d.entries.find? (fun p => decide (p.1 = "description")) = none →
      Agent.buildAction d = ParsedAction.stopAction "Agent decided to stop") := by
  refine ⟨rfl, fun items => items.length_map _, ?_⟩
  intro d ht hr hd
  simp only [List.mem_cons, List.mem_singleton, not_or] at ht
  obtain ⟨n1, n2, n3, n4, n5, n6, n7, -⟩ := ht
  have hmap : action_type_mapping (strLower (d.get "type" "")) = ActionType.stop := by
    simp only [action_type_mapping, if_neg n1, if_neg n2, if_neg n3, if_neg n4, if_neg n5,
      if_neg n6, if_neg n7]
  have hreason : d.get "reason" (d.get "description" "Agent decided to stop") =
      "Agent decided to stop" := by
    simp only [ActionDict.get, hr, hd]
  rw [Agent.buildAction, hmap, hreason]

/-- C8 witness: the item with the unrecognized type "scroll" (and no
reason or description key) maps to the default-reason stop action. -/
theorem c8_action_mapping_witness :
    Agent.buildAction ⟨[("type", "scroll")]⟩ = ParsedAction.stopAction "Agent decided to stop" :=
  c8_action_mapping.2.2 ⟨[("type", "scroll")]⟩ (by decide) rfl rfl

/-- C9: for every list of member-classifier votes, majority voting holds
iff strictly more than half of the votes (count > k/2, stated with exact
rational division) are true, unanimous iff every vote is true, and any
iff some vote is true. -/
theorem c9_composite_voting (votes : List Bool) :
    (CompositeRelevanceClassifier.is_relevant "majority" votes = true ↔
      ((votes.length : ℚ) / 2 < (votes.count true : ℚ))) ∧
    (CompositeRelevanceClassifier.is_relevant "unanimous" votes = true ↔ ∀ b ∈ votes, b = true) ∧
    (CompositeRelevanceClassifier.is_relevant "any" votes = true ↔ ∃ b ∈ votes, b = true) := by
  refine ⟨?_, ?_, ?_⟩
  · simp only [CompositeRelevanceClassifier.is_relevant, if_true, decide_eq_true_eq]
    rw [div_lt_iff₀ (by norm_num : (0:ℚ) < 2)]
    constructor
    · intro h
      have h2 : votes.length < votes.count true * 2 := by omega
      exact_mod_cast h2
    · intro h
      have h2 : votes.length < votes.count true * 2 := by exact_mod_cast h
      omega
  · simp [CompositeRelevanceClassifier.is_relevant]
  · simp [CompositeRelevanceClassifier.is_relevant]

/-- C10: with an empty classifier list, unanimous voting returns True
(vacuously), while majority and any return False; and any unrecognized
voting_strategy string behaves exactly as majority. -/
theorem c10_composite_edge_cases :
    CompositeRelevanceClassifier.is_relevant "unanimous" [] = true ∧
    CompositeRelevanceClassifier.is_relevant "majority" [] = false ∧
    CompositeRelevanceClassifier.is_relevant "any" [] = false ∧
    (∀ s : String, s ≠ "majority" → s ≠ "unanimous" → s ≠ "any" →
      ∀ votes : List Bool,
        CompositeRelevanceClassifier.is_relevant s votes =
          CompositeRelevanceClassifier.is_relevant "majority" votes) := by
  refine ⟨rfl, rfl, rfl, ?_⟩
  intro s h1 h2 h3 votes
  simp only [CompositeRelevanceClassifier.is_relevant, if_neg h1, if_neg h2, if_neg h3, if_true]

/-- C10 witness: the unrecognized strategy "weird" behaves as majority
on a singleton vote list. -/
theorem c10_composite_edge_cases_witness :
    CompositeRelevanceClassifier.is_relevant "weird" [true] =
      CompositeRelevanceClassifier.is_relevant "majority" [true] :=
  c10_composite_edge_cases.2.2.2 "weird" (by decide) (by decide) (by decide) [true]

end Uxsim
